import Mathlib

/-!
Verification of the GoHighLevel-to-Velocify webhook handler.

We shallowly embed the JavaScript program (src/server.js and the
unnamed revision src/unnamed/part_000) in Lean.  JSON-ish JavaScript
values are modelled by the inductive type `JsVal`; JavaScript objects
are field lists preserving insertion order (keys unique in practice;
lookup returns the first match, assignment replaces the first match in
place or appends).  The property writes performed by `extractFormData`
on a sub-object of the request body are modelled by explicit state
passing: the function returns both the updated payload and the
extracted form data, reflecting that in JavaScript the two alias each
other.  Code that can throw a TypeError, namely `isUniversityBankForm`
calling `toLowerCase` or `includes` on a non-string value, is modelled
in `Except String`; the route handler catches every throw and answers
500 with the error message, which the embedding mirrors.
-/

namespace GhlVelocify

mutual

/-- A JavaScript value as it can appear in a parsed JSON request body,
plus `undef` for the result of reading a missing property. -/
inductive JsVal where
  | undefined : JsVal
  | null : JsVal
  | bool : Bool → JsVal
  | num : Int → JsVal
  | str : String → JsVal
  | obj : JsFields → JsVal
deriving Repr, DecidableEq

/-- The ordered field list of a JavaScript object. -/
inductive JsFields where
  | nil : JsFields
  | fcons : String → JsVal → JsFields → JsFields
deriving Repr, DecidableEq

end

/-- Build an object field list from a Lean list of bindings. -/
def JsFields.ofList : List (String × JsVal) → JsFields
  | [] => .nil
  | (k, v) :: rest => .fcons k v (JsFields.ofList rest)

/-- Object literal notation for concrete payloads. -/
def jsObj (l : List (String × JsVal)) : JsVal := .obj (JsFields.ofList l)

/-- First-match lookup in an object; a missing key reads as `undef`,
like a missing JavaScript property. -/
def JsFields.lookup : JsFields → String → JsVal
  | .nil, _ => .undefined
  | .fcons k v rest, key => if k == key then v else rest.lookup key

/-- Assignment into an object: replace the first binding of the key in
place, or append a new binding (JavaScript insertion order). -/
def JsFields.set : JsFields → String → JsVal → JsFields
  | .nil, key, v => .fcons key v .nil
  | .fcons k w rest, key, v =>
    if k == key then .fcons k v rest else .fcons k w (rest.set key v)

/-- Does the object own the key? -/
def JsFields.hasKey : JsFields → String → Bool
  | .nil, _ => false
  | .fcons k _ rest, key => k == key || rest.hasKey key

/-- Property read `v[key]`: lookup on objects, `undef` on primitives
(none of the keys this program probes exists on JS primitives). -/
def getField : JsVal → String → JsVal
  | .obj fs, key => fs.lookup key
  | _, _ => .undefined

/-- Property write `v[key] = w`: updates objects; on primitives the
non-strict-mode write is a silent no-op. -/
def setField : JsVal → String → JsVal → JsVal
  | .obj fs, key, v => .obj (fs.set key v)
  | w, _, _ => w

/-- JavaScript truthiness of the modelled values. -/
def truthy : JsVal → Bool
  | .undefined => false
  | .null => false
  | .bool b => b
  | .num n => n != 0
  | .str s => s != ""
  | .obj _ => true

/-- `a || b`. -/
def jsOr (a b : JsVal) : JsVal := if truthy a then a else b

/-- Strict equality `v === s` against a string literal. -/
def isStr (v : JsVal) (s : String) : Bool :=
  match v with
  | .str t => t == s
  | _ => false

/-- Does the character list start with the pattern? -/
def matchesAt : List Char → List Char → Bool
  | [], _ => true
  | _ :: _, [] => false
  | p :: ps, c :: cs => p == c && matchesAt ps cs

/-- Substring search on character lists. -/
def containsAux (pat : List Char) : List Char → Bool
  | [] => matchesAt pat []
  | c :: cs => matchesAt pat (c :: cs) || containsAux pat cs

/-- `s.includes(pat)` for strings. -/
def strContains (s pat : String) : Bool := containsAux pat.toList s.toList

/-- `v.toLowerCase()`: succeeds on strings, throws a TypeError on every
other value this program can reach it with. -/
def jsToLower : JsVal → Except String String
  | .str s => .ok s.toLower
  | _ => .error "toLowerCase is not a function"

/-- `v.includes(pat)`: succeeds on strings, throws a TypeError on every
other value this program can reach it with. -/
def jsStrIncludes : JsVal → String → Except String Bool
  | .str s, pat => .ok (strContains s pat)
  | _, _ => .error "includes is not a function"

/-- The two allow-listed University Bank form ids
(`universityBankFormIds` in src/server.js). -/
def universityBankFormIds : List String :=
  ["35aVCd7RUqgNDAZ3aDC1", "3k9CDG63EryRBKqLmmqI"]

/-- `universityBankFormIds.includes(formId)`: SameValueZero membership,
true exactly when the value is one of the listed strings. -/
def jsIncludes (v : JsVal) (ids : List String) : Bool :=
  ids.any (fun i => isStr v i)

/-- The fixed University Bank location id checked by the identifier. -/
def universityBankLocationId : String := "mwppqiCfdkvcu0dJroWh"

/-- Final check of `isUniversityBankForm` (src/server.js lines
267-283): the fixed location id under either spelling, else the strict
reject. -/
def checkLocationId (payload : JsVal) : Except String Bool :=
  if isStr (getField payload "location_id") universityBankLocationId ||
      isStr (getField payload "locationId") universityBankLocationId then
    .ok true
  else
    .ok false

/-- Page-url check of `isUniversityBankForm` (src/server.js lines
259-265): a truthy `page_url` containing either allow-listed form id;
`includes` on a truthy non-string throws. -/
def checkPageUrl (payload : JsVal) : Except String Bool :=
  if truthy (getField payload "page_url") then
    match jsStrIncludes (getField payload "page_url")
        "35aVCd7RUqgNDAZ3aDC1" with
    | .error e => .error e
    | .ok hasFirstId =>
      if hasFirstId then .ok true
      else
        match jsStrIncludes (getField payload "page_url")
            "3k9CDG63EryRBKqLmmqI" with
        | .error e => .error e
        | .ok hasSecondId =>
          if hasSecondId then .ok true else checkLocationId payload
  else checkLocationId payload

/-- Tertiary check of `isUniversityBankForm` (src/server.js lines
249-257): marker phrases in a truthy `form_title`; `toLowerCase` on a
truthy non-string throws. -/
def checkFormTitle (payload : JsVal) : Except String Bool :=
  if truthy (getField payload "form_title") then
    match jsToLower (getField payload "form_title") with
    | .error e => .error e
    | .ok lowerTitle =>
      if strContains lowerTitle "university bank" ||
          strContains lowerTitle
            "schedule a meeting with university bank" then
        .ok true
      else checkPageUrl payload
  else checkPageUrl payload

/-- Secondary check of `isUniversityBankForm` (src/server.js lines
238-247): marker phrases in a truthy form name; `toLowerCase` on a
truthy non-string throws. -/
def checkFormName (formName payload : JsVal) : Except String Bool :=
  if truthy formName then
    match jsToLower formName with
    | .error e => .error e
    | .ok lowerFormName =>
      if strContains lowerFormName "complete this form to get started" ||
          strContains lowerFormName "university bank" ||
          strContains lowerFormName "schedule a meeting" then
        .ok true
      else checkFormTitle payload
  else checkFormTitle payload

/-- `isUniversityBankForm(formName, formId, payload)` from
src/server.js lines 225-284, as the sequence of its early-returning
checks: allow-listed form id, then marker phrases in the form name,
then in the form title, then an allow-listed form id inside the page
url, then the fixed location id; otherwise false. -/
def isUniversityBankForm (formName formId payload : JsVal) :
    Except String Bool :=
  if truthy formId && jsIncludes formId universityBankFormIds then
    .ok true
  else checkFormName formName payload

/-- `extractFormData(payload)` from src/server.js lines 90-115.  The
JavaScript function mutates the chosen sub-object in place (writing
`contactId`, and in the form-submit case `locationId`) and returns it;
we return the pair (payload after mutation, extracted form data). -/
def extractFormData (payload : JsVal) : JsVal × JsVal :=
  if isStr (getField payload "type") "form_submit" &&
      truthy (getField payload "form_data") then
    let fd0 := getField payload "form_data"
    let fd1 := setField fd0 "contactId" (getField payload "contact_id")
    let fd2 := setField fd1 "locationId" (getField payload "location_id")
    (setField payload "form_data" fd2, fd2)
  else if truthy (getField payload "contact") then
    let c0 := getField payload "contact"
    let c1 := setField c0 "contactId" (getField c0 "id")
    (setField payload "contact" c1, c1)
  else if truthy (getField payload "customFields") then
    let cf0 := getField payload "customFields"
    let cf1 := setField cf0 "contactId" (getField payload "contactId")
    (setField payload "customFields" cf1, cf1)
  else
    (payload, payload)

/-- `null` or `undefined` (the values the cleanup loop deletes and the
forwarder skips). -/
def isNullOrUndef : JsVal → Bool
  | .null => true
  | .undefined => true
  | _ => false

/-- `s.trim()`: drop leading and trailing whitespace. -/
def strTrim (s : String) : String :=
  String.mk
    (((s.toList.dropWhile Char.isWhitespace).reverse.dropWhile
      Char.isWhitespace).reverse)

/-- The cleanup step applied to each kept value: a string that trims to
empty becomes the empty string, everything else is unchanged. -/
def cleanVal : JsVal → JsVal
  | .str s => if strTrim s == "" then .str "" else .str s
  | v => v

/-- `transformToVelocifyFormat(formData)` from src/server.js lines
118-177.  `now` stands for `new Date().toISOString()`.  The result is
the ordered field list of the literal object, with the alternative
field-naming overrides and the cleanup loop applied. -/
def transformToVelocifyFormat (formData : JsVal) (now : String) :
    List (String × JsVal) :=
  let firstName0 :=
    jsOr (jsOr (jsOr (getField formData "First Name")
      (getField formData "firstName")) (getField formData "first_name"))
      (.str "")
  let lastName0 :=
    jsOr (jsOr (jsOr (getField formData "Last Name")
      (getField formData "lastName")) (getField formData "last_name"))
      (.str "")
  let email0 :=
    jsOr (jsOr (getField formData "Email") (getField formData "email"))
      (.str "")
  let phone0 :=
    jsOr (jsOr (getField formData "Phone") (getField formData "phone"))
      (.str "")
  let ghlContactId :=
    jsOr (jsOr (getField formData "contactId")
      (getField formData "contact_id")) (.str "")
  let firstName :=
    if truthy firstName0 then firstName0 else
      jsOr (jsOr (jsOr (getField formData "firstname")
        (getField formData "first-name")) (getField formData "fname"))
        (.str "")
  let lastName :=
    if truthy lastName0 then lastName0 else
      jsOr (jsOr (jsOr (getField formData "lastname")
        (getField formData "last-name")) (getField formData "lname"))
        (.str "")
  let email :=
    if truthy email0 then email0 else
      jsOr (jsOr (getField formData "emailAddress")
        (getField formData "email-address")) (.str "")
  let phone :=
    if truthy phone0 then phone0 else
      jsOr (jsOr (jsOr (getField formData "phoneNumber")
        (getField formData "phone-number")) (getField formData "mobile"))
        (.str "")
  let velocifyPayload : List (String × JsVal) :=
    [("FirstName", firstName),
     ("LastName", lastName),
     ("Email", email),
     ("Phone", phone),
     ("LeadSource", .str "Replace Your University - GoHighLevel"),
     ("Campaign", .str "Replace Your University - Get Started Form"),
     ("Comments", .str "Lead from Replace Your University - Get Started Form. Submitted via GoHighLevel integration."),
     ("Source", .str "RYU Website Form"),
     ("Medium", .str "GoHighLevel Integration"),
     ("Content", .str "Complete This Form To Get Started"),
     ("SubmissionDate", .str now),
     ("ClientIdentifier", .str "Replace Your University (RYU)"),
     ("FormName", .str "RYU - Get Started Form"),
     ("GHLContactId", ghlContactId),
     ("OriginalSource", .str "Replace Your University Website")]
  (velocifyPayload.filter (fun kv => !(isNullOrUndef kv.2))).map
    (fun kv => (kv.1, cleanVal kv.2))

/-- The form-encoded body built by `sendToVelocify` (src/server.js
lines 187-194): every field of the payload whose value is neither null
nor undefined is appended to the outbound `URLSearchParams`. -/
def sendToVelocifyBody (payload : List (String × JsVal)) :
    List (String × JsVal) :=
  payload.filter (fun kv => !(isNullOrUndef kv.2))

/-- Outcome of the single `axios.post` to the Velocify import URL: a
response with its `data`, or a thrown error (network error, non-2xx
status or timeout) carrying `error.message`. -/
inductive ForwardOutcome where
  | ok : JsVal → ForwardOutcome
  | err : String → ForwardOutcome
deriving Repr, DecidableEq

/-- What a run of the route handler produces: the HTTP status and JSON
body of the response, and the list of bodies posted to Velocify (one
entry per invocation of `sendToVelocify`). -/
structure HandlerResult where
  status : Nat
  body : List (String × JsVal)
  sent : List (List (String × JsVal))
deriving Repr, DecidableEq

/-- `req.body.form_name || req.body.formName || ''`. -/
def computedFormName (body : JsVal) : JsVal :=
  jsOr (jsOr (getField body "form_name") (getField body "formName"))
    (.str "")

/-- `req.body.form_id || req.body.formId || ''`. -/
def computedFormId (body : JsVal) : JsVal :=
  jsOr (jsOr (getField body "form_id") (getField body "formId"))
    (.str "")

/-- The shared webhook secret; truthy, so the signature check runs
whenever the `x-signature` header is truthy. -/
def GHL_WEBHOOK_SECRET : String := "your_ghl_webhook_secret"

/-- The part of the route handler both revisions share, starting at the
optional signature verification.  `sigHeader` is the `x-signature`
request header (`none` when absent); `expectedSignature` is the value
of the HMAC-SHA256 hex digest of the JSON-serialized body under the
shared secret, which the handler computes with `crypto.createHmac`;
`now` is the timestamp; `outcome` is what the single outbound post
would produce. -/
def handlePipeline (body : JsVal) (sigHeader : Option String)
    (expectedSignature : String) (now : String)
    (outcome : ForwardOutcome) : HandlerResult :=
  let sigRejected :=
    match sigHeader with
    | some s =>
      GHL_WEBHOOK_SECRET != "" && s != "" && s != expectedSignature
    | none => false
  if sigRejected then
    { status := 401, body := [("error", .str "Invalid signature")],
      sent := [] }
  else
    let formData := (extractFormData body).2
    if !(truthy formData) then
      { status := 400, body := [("error", .str "Invalid form data")],
        sent := [] }
    else
      let velocifyPayload := transformToVelocifyFormat formData now
      let outBody := sendToVelocifyBody velocifyPayload
      match outcome with
      | .ok data =>
        { status := 200,
          body := [("success", .bool true),
                   ("message", .str "Lead successfully sent to Velocify"),
                   ("velocifyId",
                     jsOr (jsOr (getField data "LeadId")
                       (getField data "id")) (.str "N/A"))],
          sent := [outBody] }
      | .err msg =>
        { status := 500,
          body := [("success", .bool false), ("error", .str msg)],
          sent := [outBody] }

/-- The route handler of src/server.js (lines 29-87): the University
Bank form filter runs first, then the pipeline shared with the other
revision; a throw inside the filter is caught by the surrounding
try/catch and answered with status 500 and the error message. -/
def handleWebhookServer (body : JsVal) (sigHeader : Option String)
    (expectedSignature : String) (now : String)
    (outcome : ForwardOutcome) : HandlerResult :=
  match isUniversityBankForm (computedFormName body)
      (computedFormId body) body with
  | .error msg =>
    { status := 500,
      body := [("success", .bool false), ("error", .str msg)],
      sent := [] }
  | .ok false =>
    { status := 200,
      body := [("message", .str "Form not targeted for University Bank")],
      sent := [] }
  | .ok true => handlePipeline body sigHeader expectedSignature now outcome

/-- The route handler of src/unnamed/part_000 (lines 29-77): identical
to src/server.js except that it has no University Bank form filter, so
every request goes straight into the signature check and the rest of
the pipeline. -/
def handleWebhookPart000 (body : JsVal) (sigHeader : Option String)
    (expectedSignature : String) (now : String)
    (outcome : ForwardOutcome) : HandlerResult :=
  let sigRejected :=
    match sigHeader with
    | some s =>
      GHL_WEBHOOK_SECRET != "" && s != "" && s != expectedSignature
    | none => false
  if sigRejected then
    { status := 401, body := [("error", .str "Invalid signature")],
      sent := [] }
  else
    let formData := (extractFormData body).2
    if !(truthy formData) then
      { status := 400, body := [("error", .str "Invalid form data")],
        sent := [] }
    else
      let velocifyPayload := transformToVelocifyFormat formData now
      let outBody := sendToVelocifyBody velocifyPayload
      match outcome with
      | .ok data =>
        { status := 200,
          body := [("success", .bool true),
                   ("message", .str "Lead successfully sent to Velocify"),
                   ("velocifyId",
                     jsOr (jsOr (getField data "LeadId")
                       (getField data "id")) (.str "N/A"))],
          sent := [outBody] }
      | .err msg =>
        { status := 500,
          body := [("success", .bool false), ("error", .str msg)],
          sent := [outBody] }

/-- Option-valued lookup in the outbound field list, to state that a
field name is present. -/
def lookupVal : List (String × JsVal) → String → Option JsVal
  | [], _ => none
  | (k, v) :: rest, key => if k == key then some v else lookupVal rest key

/-- The first truthy value among the probed keys, else the empty
string: the net effect of a `a || b || ... || ''` chain together with
its `if (!x) x = ...` override. -/
def firstTruthy (fd : JsVal) : List String → JsVal
  | [] => .str ""
  | k :: ks => if truthy (getField fd k) then getField fd k
               else firstTruthy fd ks

/-- Every key spelling probed for `FirstName`, in probe order. -/
def firstNameKeys : List String :=
  ["First Name", "firstName", "first_name", "firstname", "first-name",
   "fname"]

/-- Every key spelling probed for `LastName`, in probe order. -/
def lastNameKeys : List String :=
  ["Last Name", "lastName", "last_name", "lastname", "last-name",
   "lname"]

/-- Every key spelling probed for `Email`, in probe order. -/
def emailKeys : List String :=
  ["Email", "email", "emailAddress", "email-address"]

/-- Every key spelling probed for `Phone`, in probe order. -/
def phoneKeys : List String :=
  ["Phone", "phone", "phoneNumber", "phone-number", "mobile"]

/-- Both key spellings probed for `GHLContactId`, in probe order. -/
def ghlContactIdKeys : List String := ["contactId", "contact_id"]

/-- The field names of the outbound Velocify payload, in insertion
order; the fixed compatibility contract with the import system. -/
def velocifyFieldNames : List String :=
  ["FirstName", "LastName", "Email", "Phone", "LeadSource", "Campaign",
   "Comments", "Source", "Medium", "Content", "SubmissionDate",
   "ClientIdentifier", "FormName", "GHLContactId", "OriginalSource"]

/-- Is the value a string? -/
def isStringVal : JsVal → Bool
  | .str _ => true
  | _ => false

/-- Lookup in the outbound field list with the `undef` default of a
missing JavaScript property. -/
def lookupD (l : List (String × JsVal)) (key : String) : JsVal :=
  match lookupVal l key with
  | some v => v
  | none => .undefined

/-- The form name triggers no marker-phrase match: it is falsy, or it
is a string whose lowercase form contains none of the three name
marker phrases. -/
def nameMarkerFree (v : JsVal) : Prop :=
  truthy v = false ∨ ∃ s, v = JsVal.str s ∧
    strContains s.toLower "complete this form to get started" = false ∧
    strContains s.toLower "university bank" = false ∧
    strContains s.toLower "schedule a meeting" = false

/-- The form title triggers no marker-phrase match: it is falsy, or it
is a string whose lowercase form contains neither title marker
phrase. -/
def titleMarkerFree (v : JsVal) : Prop :=
  truthy v = false ∨ ∃ s, v = JsVal.str s ∧
    strContains s.toLower "university bank" = false ∧
    strContains s.toLower "schedule a meeting with university bank" =
      false

/-- The page url triggers no form-id match: it is falsy, or it is a
string containing neither allow-listed form id. -/
def pageUrlIdFree (v : JsVal) : Prop :=
  truthy v = false ∨ ∃ s, v = JsVal.str s ∧
    strContains s "35aVCd7RUqgNDAZ3aDC1" = false ∧
    strContains s "3k9CDG63EryRBKqLmmqI" = false

theorem jsOr_chain3 (fd : JsVal) (k1 k2 k3 : String) :
    jsOr (jsOr (jsOr (getField fd k1) (getField fd k2))
      (getField fd k3)) (.str "") = firstTruthy fd [k1, k2, k3] := by
  by_cases h1 : truthy (getField fd k1) <;>
    by_cases h2 : truthy (getField fd k2) <;>
      by_cases h3 : truthy (getField fd k3) <;>
        simp [jsOr, firstTruthy, h1, h2, h3]

theorem jsOr_chain2 (fd : JsVal) (k1 k2 : String) :
    jsOr (jsOr (getField fd k1) (getField fd k2)) (.str "") =
      firstTruthy fd [k1, k2] := by
  by_cases h1 : truthy (getField fd k1) <;>
    by_cases h2 : truthy (getField fd k2) <;>
      simp [jsOr, firstTruthy, h1, h2]

theorem firstTruthy_append (fd : JsVal) (ks1 ks2 : List String) :
    (if truthy (firstTruthy fd ks1) then firstTruthy fd ks1
     else firstTruthy fd ks2) = firstTruthy fd (ks1 ++ ks2) := by
  induction ks1 with
  | nil => simp [firstTruthy, truthy]
  | cons k ks ih =>
    by_cases h : truthy (getField fd k)
    · simp [firstTruthy, h]
    · simpa [firstTruthy, h] using ih

theorem truthy_not_nullOrUndef (v : JsVal) (h : truthy v = true) :
    isNullOrUndef v = false := by
  cases v <;> simp_all [truthy, isNullOrUndef]

theorem isNullOrUndef_str (s : String) : isNullOrUndef (.str s) = false :=
  rfl

theorem isNullOrUndef_firstTruthy (fd : JsVal) (ks : List String) :
    isNullOrUndef (firstTruthy fd ks) = false := by
  induction ks with
  | nil => rfl
  | cons k ks ih =>
    by_cases h : truthy (getField fd k)
    · simpa [firstTruthy, h] using truthy_not_nullOrUndef _ h
    · simpa [firstTruthy, h] using ih

/-- The transformer, in closed form: each of the four lead fields (and
the GoHighLevel contact id) is the first truthy value of its probe-key
list with empty-string fallback, passed through the cleanup step, and
the constant tracking fields follow, all in the fixed order. -/
theorem transformToVelocifyFormat_eq (fd : JsVal) (now : String) :
    transformToVelocifyFormat fd now =
      [("FirstName", cleanVal (firstTruthy fd firstNameKeys)),
       ("LastName", cleanVal (firstTruthy fd lastNameKeys)),
       ("Email", cleanVal (firstTruthy fd emailKeys)),
       ("Phone", cleanVal (firstTruthy fd phoneKeys)),
       ("LeadSource",
         cleanVal (.str "Replace Your University - GoHighLevel")),
       ("Campaign",
         cleanVal (.str "Replace Your University - Get Started Form")),
       ("Comments",
         cleanVal (.str "Lead from Replace Your University - Get Started Form. Submitted via GoHighLevel integration.")),
       ("Source", cleanVal (.str "RYU Website Form")),
       ("Medium", cleanVal (.str "GoHighLevel Integration")),
       ("Content", cleanVal (.str "Complete This Form To Get Started")),
       ("SubmissionDate", cleanVal (.str now)),
       ("ClientIdentifier",
         cleanVal (.str "Replace Your University (RYU)")),
       ("FormName", cleanVal (.str "RYU - Get Started Form")),
       ("GHLContactId", cleanVal (firstTruthy fd ghlContactIdKeys)),
       ("OriginalSource",
         cleanVal (.str "Replace Your University Website"))] := by
  simp only [transformToVelocifyFormat, jsOr_chain3, jsOr_chain2,
    firstTruthy_append, firstNameKeys, lastNameKeys, emailKeys,
    phoneKeys, ghlContactIdKeys, List.cons_append, List.nil_append]
  simp [List.filter, List.map, isNullOrUndef_firstTruthy,
    isNullOrUndef_str]

theorem truthy_setField (v : JsVal) (k : String) (w : JsVal) :
    truthy (setField v k w) = truthy v := by
  cases v <;> rfl

theorem truthy_obj (fs : JsFields) : truthy (.obj fs) = true := rfl

theorem truthy_extractFormData_obj (fs : JsFields) :
    truthy (extractFormData (.obj fs)).2 = true := by
  simp only [extractFormData]
  cases h1 : (isStr (getField (JsVal.obj fs) "type") "form_submit" &&
      truthy (getField (JsVal.obj fs) "form_data")) with
  | true =>
    simp only [Bool.and_eq_true] at h1
    simp [truthy_setField, h1.2]
  | false =>
    cases hc : truthy (getField (JsVal.obj fs) "contact") with
    | true => simp [truthy_setField, hc]
    | false =>
      cases hcf : truthy (getField (JsVal.obj fs) "customFields") with
      | true => simp [truthy_setField, hcf]
      | false => simp [truthy_obj]

theorem JsFields.lookup_set_self :
    (fs : JsFields) → (key : String) → (v : JsVal) →
      (fs.set key v).lookup key = v
  | .nil, key, v => by simp [JsFields.set, JsFields.lookup]
  | .fcons k w rest, key, v => by
    by_cases h : (k == key) = true
    · simp [JsFields.set, JsFields.lookup, h]
    · simp [JsFields.set, JsFields.lookup, h,
        JsFields.lookup_set_self rest key v]

theorem getField_setField_obj (fs : JsFields) (key : String)
    (v : JsVal) : getField (setField (.obj fs) key v) key = v := by
  simp [setField, getField, JsFields.lookup_set_self]

theorem getField_truthy_obj (p : JsVal) (k : String)
    (h : truthy (getField p k) = true) : ∃ fs, p = JsVal.obj fs := by
  cases p <;> simp_all [getField, truthy]

theorem isNullOrUndef_cleanVal (v : JsVal) :
    isNullOrUndef (cleanVal v) = isNullOrUndef v := by
  cases v <;> first
  | rfl
  | (simp only [cleanVal]; split <;> rfl)

theorem checkLocationId_false (payload : JsVal)
    (h1 : isStr (getField payload "location_id")
      universityBankLocationId = false)
    (h2 : isStr (getField payload "locationId")
      universityBankLocationId = false) :
    checkLocationId payload = .ok false := by
  simp [checkLocationId, h1, h2]

theorem checkPageUrl_false (payload : JsVal)
    (hurl : pageUrlIdFree (getField payload "page_url"))
    (h1 : isStr (getField payload "location_id")
      universityBankLocationId = false)
    (h2 : isStr (getField payload "locationId")
      universityBankLocationId = false) :
    checkPageUrl payload = .ok false := by
  rcases hurl with hfal | ⟨s, hs, hu1, hu2⟩
  · simp [checkPageUrl, hfal, checkLocationId_false payload h1 h2]
  · simp [checkPageUrl, hs, jsStrIncludes, hu1, hu2, truthy,
      checkLocationId_false payload h1 h2]

theorem checkFormTitle_false (payload : JsVal)
    (htitle : titleMarkerFree (getField payload "form_title"))
    (hurl : pageUrlIdFree (getField payload "page_url"))
    (h1 : isStr (getField payload "location_id")
      universityBankLocationId = false)
    (h2 : isStr (getField payload "locationId")
      universityBankLocationId = false) :
    checkFormTitle payload = .ok false := by
  rcases htitle with hfal | ⟨s, hs, ht1, ht2⟩
  · simp [checkFormTitle, hfal,
      checkPageUrl_false payload hurl h1 h2]
  · simp [checkFormTitle, hs, jsToLower, ht1, ht2, truthy,
      checkPageUrl_false payload hurl h1 h2]

theorem checkFormName_false (formName payload : JsVal)
    (hname : nameMarkerFree formName)
    (htitle : titleMarkerFree (getField payload "form_title"))
    (hurl : pageUrlIdFree (getField payload "page_url"))
    (h1 : isStr (getField payload "location_id")
      universityBankLocationId = false)
    (h2 : isStr (getField payload "locationId")
      universityBankLocationId = false) :
    checkFormName formName payload = .ok false := by
  rcases hname with hfal | ⟨s, hs, hn1, hn2, hn3⟩
  · simp [checkFormName, hfal,
      checkFormTitle_false payload htitle hurl h1 h2]
  · simp [checkFormName, hs, jsToLower, hn1, hn2, hn3, truthy,
      checkFormTitle_false payload htitle hurl h1 h2]

/-- Claim C6 (confirmed): a request the Form Identifier recognizes as
not targeted is answered with status 200 and the distinguishing
message, and the Forwarder is never invoked. -/
theorem c6_not_targeted_skipped (body : JsVal)
    (sigHeader : Option String) (expectedSignature now : String)
    (outcome : ForwardOutcome)
    (h : isUniversityBankForm (computedFormName body)
      (computedFormId body) body = .ok false) :
    handleWebhookServer body sigHeader expectedSignature now outcome =
      { status := 200,
        body := [("message",
          .str "Form not targeted for University Bank")],
        sent := [] } := by
  simp [handleWebhookServer, h]

/-- Witness for C6 at the empty payload. -/
theorem c6_witness :
    handleWebhookServer (jsObj []) none "digest" "now"
        (.ok (jsObj [])) =
      { status := 200,
        body := [("message",
          .str "Form not targeted for University Bank")],
        sent := [] } :=
  c6_not_targeted_skipped (jsObj []) none "digest" "now"
    (.ok (jsObj [])) (by rfl)

/-- Claim C7 (confirmed): for every extracted lead the outbound
form-encoded body carries exactly the fixed destination field names,
among them FirstName, LastName, Email, Phone, LeadSource, Campaign and
Comments, regardless of which source-key spelling produced each
value. -/
theorem c7_outbound_contract (fd : JsVal) (now : String) :
    (sendToVelocifyBody (transformToVelocifyFormat fd now)).map
        Prod.fst = velocifyFieldNames ∧
    "FirstName" ∈ velocifyFieldNames ∧
    "LastName" ∈ velocifyFieldNames ∧
    "Email" ∈ velocifyFieldNames ∧
    "Phone" ∈ velocifyFieldNames ∧
    "LeadSource" ∈ velocifyFieldNames ∧
    "Campaign" ∈ velocifyFieldNames ∧
    "Comments" ∈ velocifyFieldNames := by
  refine ⟨?_, by simp [velocifyFieldNames], by simp [velocifyFieldNames],
    by simp [velocifyFieldNames], by simp [velocifyFieldNames],
    by simp [velocifyFieldNames], by simp [velocifyFieldNames],
    by simp [velocifyFieldNames]⟩
  rw [transformToVelocifyFormat_eq]
  simp [sendToVelocifyBody, List.filter, List.map,
    isNullOrUndef_cleanVal, isNullOrUndef_firstTruthy,
    isNullOrUndef_str, velocifyFieldNames]

/-- Claim C9, counterexample: on the empty payload (not recognized as
targeted) with a failing downstream, src/server.js answers 200 without
forwarding while src/unnamed/part_000 forwards once and answers 500,
so the two revisions are not behaviorally equivalent. -/
theorem c9_counterexample :
    (handleWebhookServer (jsObj []) none "digest" "now"
      (.err "boom")).status = 200 ∧
    (handleWebhookPart000 (jsObj []) none "digest" "now"
      (.err "boom")).status = 500 ∧
    (handleWebhookServer (jsObj []) none "digest" "now"
      (.err "boom")).sent.length = 0 ∧
    (handleWebhookPart000 (jsObj []) none "digest" "now"
      (.err "boom")).sent.length = 1 := by
  refine ⟨by rfl, by rfl, by rfl, by rfl⟩

/-- Claim C9 (corrected): the two revisions agree, producing the same
status, body and forwarded posts, on every request whose payload the
Form Identifier recognizes as targeted; the counterexample shows they
are not behaviorally equivalent in general. -/
theorem c9_amended_targeted_equivalent (body : JsVal)
    (sigHeader : Option String) (expectedSignature now : String)
    (outcome : ForwardOutcome)
    (h : isUniversityBankForm (computedFormName body)
      (computedFormId body) body = .ok true) :
    handleWebhookServer body sigHeader expectedSignature now outcome =
      handleWebhookPart000 body sigHeader expectedSignature now
        outcome := by
  simp only [handleWebhookServer, h]
  rfl

/-- Witness for C9 at a payload carrying an allow-listed form id. -/
theorem c9_witness :
    handleWebhookServer
        (jsObj [("form_id", .str "35aVCd7RUqgNDAZ3aDC1")]) none
        "digest" "now" (.ok (jsObj [])) =
      handleWebhookPart000
        (jsObj [("form_id", .str "35aVCd7RUqgNDAZ3aDC1")]) none
        "digest" "now" (.ok (jsObj [])) :=
  c9_amended_targeted_equivalent
    (jsObj [("form_id", .str "35aVCd7RUqgNDAZ3aDC1")]) none "digest"
    "now" (.ok (jsObj [])) (by rfl)

/-- Claim C1, counterexample: a payload that passes the form filter
but has no identity data at all is forwarded (one outbound post) and
answered 200, not rejected with 400. -/
theorem c1_counterexample :
    (lookupD (transformToVelocifyFormat
      (extractFormData
        (jsObj [("form_id", .str "35aVCd7RUqgNDAZ3aDC1")])).2 "now")
      "FirstName" = .str "") ∧
    (lookupD (transformToVelocifyFormat
      (extractFormData
        (jsObj [("form_id", .str "35aVCd7RUqgNDAZ3aDC1")])).2 "now")
      "LastName" = .str "") ∧
    (lookupD (transformToVelocifyFormat
      (extractFormData
        (jsObj [("form_id", .str "35aVCd7RUqgNDAZ3aDC1")])).2 "now")
      "Email" = .str "") ∧
    (handleWebhookServer (jsObj [("form_id", .str "35aVCd7RUqgNDAZ3aDC1")])
      none "digest" "now" (.ok (jsObj []))).status = 200 ∧
    (handleWebhookServer (jsObj [("form_id", .str "35aVCd7RUqgNDAZ3aDC1")])
      none "digest" "now" (.ok (jsObj []))).sent.length = 1 := by
  refine ⟨by rfl, by rfl, by rfl, by rfl, by rfl⟩

/-- Claim C1 (corrected): extraction never yields a falsy value on an
object request body, so the 400 rejection is unreachable there and a
lead with all identity fields empty is not rejected. -/
theorem c1_amended_no_400_for_object_bodies (fs : JsFields)
    (sigHeader : Option String) (expectedSignature now : String)
    (outcome : ForwardOutcome) :
    truthy (extractFormData (.obj fs)).2 = true ∧
    (handleWebhookServer (.obj fs) sigHeader expectedSignature now
      outcome).status ≠ 400 := by
  refine ⟨truthy_extractFormData_obj fs, ?_⟩
  simp only [handleWebhookServer]
  cases hUB : isUniversityBankForm (computedFormName (JsVal.obj fs))
      (computedFormId (JsVal.obj fs)) (JsVal.obj fs) with
  | error e => simp
  | ok b =>
    cases b with
    | false => simp
    | true =>
      simp only [handlePipeline]
      cases sigHeader with
      | none =>
        simp only [truthy_extractFormData_obj fs]
        cases outcome <;> simp
      | some s =>
        by_cases hs : s = ""
        · subst hs
          simp only [truthy_extractFormData_obj fs]
          simp [GHL_WEBHOOK_SECRET]
          cases outcome <;> simp
        · by_cases hm : s = expectedSignature
          · subst hm
            simp only [truthy_extractFormData_obj fs]
            simp [GHL_WEBHOOK_SECRET]
            cases outcome <;> simp
          · simp [GHL_WEBHOOK_SECRET, hs, hm]

/-- Claim C2, counterexample: a mismatched signature on a payload the
filter does not recognize is answered 200 (the skip response), not
401, because src/server.js runs the form filter before the signature
check; the Forwarder is still not invoked. -/
theorem c2_counterexample :
    "aaa" ≠ "bbb" ∧
    (handleWebhookServer (jsObj []) (some "aaa") "bbb" "now"
      (.ok (jsObj []))).status = 200 ∧
    (handleWebhookServer (jsObj []) (some "aaa") "bbb" "now"
      (.ok (jsObj []))).status ≠ 401 ∧
    (handleWebhookServer (jsObj []) (some "aaa") "bbb" "now"
      (.ok (jsObj []))).sent = [] := by
  refine ⟨by decide, by rfl, by decide, by rfl⟩

/-- Claim C2 (corrected): on a request the filter recognizes as
targeted, a non-empty `x-signature` header differing from the expected
HMAC digest is answered 401 and the Forwarder is never invoked. -/
theorem c2_amended_targeted_bad_signature (body : JsVal)
    (s expectedSignature now : String) (outcome : ForwardOutcome)
    (hUB : isUniversityBankForm (computedFormName body)
      (computedFormId body) body = .ok true)
    (hne : s ≠ "") (hnm : s ≠ expectedSignature) :
    handleWebhookServer body (some s) expectedSignature now outcome =
      { status := 401, body := [("error", .str "Invalid signature")],
        sent := [] } := by
  simp only [handleWebhookServer, hUB, handlePipeline]
  simp [GHL_WEBHOOK_SECRET, hne, hnm]

/-- Witness for C2 at a payload carrying an allow-listed form id and a
mismatched non-empty signature header. -/
theorem c2_witness :
    handleWebhookServer
        (jsObj [("form_id", .str "35aVCd7RUqgNDAZ3aDC1")]) (some "aaa")
        "bbb" "now" (.ok (jsObj [])) =
      { status := 401, body := [("error", .str "Invalid signature")],
        sent := [] } :=
  c2_amended_targeted_bad_signature
    (jsObj [("form_id", .str "35aVCd7RUqgNDAZ3aDC1")]) "aaa" "bbb"
    "now" (.ok (jsObj [])) (by rfl) (by decide) (by decide)

/-- Claim C8 (confirmed): when the single outbound post fails (network
error, non-2xx or timeout all surface as a thrown error), the handler
answers 500 exactly once with the error message in the response body,
and only one outbound post was attempted (no retry). -/
theorem c8_forward_failure_500 (fs : JsFields)
    (sigHeader : Option String) (expectedSignature now msg : String)
    (hUB : isUniversityBankForm (computedFormName (.obj fs))
      (computedFormId (.obj fs)) (.obj fs) = .ok true)
    (hsig : ∀ s, sigHeader = some s →
      s = "" ∨ s = expectedSignature) :
    handleWebhookServer (.obj fs) sigHeader expectedSignature now
        (.err msg) =
      { status := 500,
        body := [("success", .bool false), ("error", .str msg)],
        sent := [sendToVelocifyBody (transformToVelocifyFormat
          (extractFormData (.obj fs)).2 now)] } := by
  simp only [handleWebhookServer, hUB, handlePipeline]
  cases sigHeader with
  | none =>
    simp only [truthy_extractFormData_obj fs]
    simp
  | some s =>
    rcases hsig s rfl with h | h
    · subst h
      simp only [truthy_extractFormData_obj fs]
      simp
    · subst h
      simp only [truthy_extractFormData_obj fs]
      simp

/-- Witness for C8 at a payload carrying an allow-listed form id, no
signature header and a failing downstream. -/
theorem c8_witness :
    handleWebhookServer
        (jsObj [("form_id", .str "35aVCd7RUqgNDAZ3aDC1")]) none
        "digest" "now" (.err "boom") =
      { status := 500,
        body := [("success", .bool false), ("error", .str "boom")],
        sent := [sendToVelocifyBody (transformToVelocifyFormat
          (extractFormData
            (jsObj [("form_id", .str "35aVCd7RUqgNDAZ3aDC1")])).2
          "now")] } := by
  have h := c8_forward_failure_500
    (JsFields.ofList [("form_id", .str "35aVCd7RUqgNDAZ3aDC1")]) none
    "digest" "now" "boom" (by rfl)
    (fun s hs => by cases hs)
  exact h

/-- Claim C3, counterexample: a payload with no allow-listed form id,
no marker phrase in form name or title and a non-matching location id
is still recognized as targeted when its page url contains an
allow-listed form id, so the identifier returns true where the claim
predicts false. -/
theorem c3_counterexample :
    isUniversityBankForm (.str "") (.str "")
        (jsObj [("page_url",
          .str "https://site/35aVCd7RUqgNDAZ3aDC1")]) = .ok true ∧
    jsIncludes (.str "") universityBankFormIds = false ∧
    nameMarkerFree (.str "") ∧
    titleMarkerFree (getField
      (jsObj [("page_url", .str "https://site/35aVCd7RUqgNDAZ3aDC1")])
      "form_title") ∧
    isStr (getField
      (jsObj [("page_url", .str "https://site/35aVCd7RUqgNDAZ3aDC1")])
      "location_id") universityBankLocationId = false ∧
    isStr (getField
      (jsObj [("page_url", .str "https://site/35aVCd7RUqgNDAZ3aDC1")])
      "locationId") universityBankLocationId = false := by
  refine ⟨by rfl, by rfl, Or.inl (by rfl), Or.inl (by rfl), by rfl,
    by rfl⟩

/-- Claim C3 (corrected): the identifier returns false when the form id
is not allow-listed, the form name and title carry no marker phrase,
the page url contains neither allow-listed form id, and the location id
does not match under either spelling. -/
theorem c3_amended_identifier_rejects (formName formId payload : JsVal)
    (hid : jsIncludes formId universityBankFormIds = false)
    (hname : nameMarkerFree formName)
    (htitle : titleMarkerFree (getField payload "form_title"))
    (hurl : pageUrlIdFree (getField payload "page_url"))
    (hloc1 : isStr (getField payload "location_id")
      universityBankLocationId = false)
    (hloc2 : isStr (getField payload "locationId")
      universityBankLocationId = false) :
    isUniversityBankForm formName formId payload = .ok false := by
  simp only [isUniversityBankForm, hid, Bool.and_false,
    Bool.false_eq_true, if_false]
  exact checkFormName_false formName payload hname htitle hurl hloc1
    hloc2

/-- Witness for C3 at a payload with none of the identifying marks. -/
theorem c3_witness :
    isUniversityBankForm .undefined .undefined (jsObj []) = .ok false :=
  c3_amended_identifier_rejects .undefined .undefined (jsObj []) (by rfl)
    (Or.inl rfl) (Or.inl rfl) (Or.inl rfl) (by rfl) (by rfl)

/-- Claim C4, counterexample: with a truthy contact bundle present, a
non-empty top-level `firstName` is ignored and the contact bundle's
value is extracted instead, so top-level keys are not probed first. -/
theorem c4_counterexample :
    getField (jsObj [("firstName", .str "Top"),
        ("contact", jsObj [("firstName", .str "Nested"),
          ("id", .str "c1")])]) "firstName" = .str "Top" ∧
    lookupVal (transformToVelocifyFormat
        (extractFormData (jsObj [("firstName", .str "Top"),
          ("contact", jsObj [("firstName", .str "Nested"),
            ("id", .str "c1")])])).2 "now") "FirstName" =
      some (.str "Nested") := by
  refine ⟨by rfl, by rfl⟩

/-- Claim C4 (corrected): for each of the four output fields, the
pipeline probes the single bundle selected by `extractFormData` (not
the top-level payload first) for its prioritized key-spelling list and
keeps the first truthy value, cleaned, with empty-string fallback. -/
theorem c4_amended_bundle_priority (p : JsVal) (now : String) :
    lookupVal (transformToVelocifyFormat (extractFormData p).2 now)
        "FirstName" =
      some (cleanVal (firstTruthy (extractFormData p).2
        firstNameKeys)) ∧
    lookupVal (transformToVelocifyFormat (extractFormData p).2 now)
        "LastName" =
      some (cleanVal (firstTruthy (extractFormData p).2
        lastNameKeys)) ∧
    lookupVal (transformToVelocifyFormat (extractFormData p).2 now)
        "Email" =
      some (cleanVal (firstTruthy (extractFormData p).2 emailKeys)) ∧
    lookupVal (transformToVelocifyFormat (extractFormData p).2 now)
        "Phone" =
      some (cleanVal (firstTruthy (extractFormData p).2 phoneKeys)) := by
  rw [transformToVelocifyFormat_eq]
  refine ⟨by simp [lookupVal], by simp [lookupVal], by simp [lookupVal],
    by simp [lookupVal]⟩

/-- Claim C5, counterexample: a truthy non-string source value (here
the number 1 under `firstName`) is passed through unchanged, so the
extracted FirstName field is not a string. -/
theorem c5_counterexample :
    lookupVal (transformToVelocifyFormat
        (jsObj [("firstName", .num 1)]) "now") "FirstName" =
      some (.num 1) ∧
    isStringVal (.num 1) = false := by
  refine ⟨by rfl, by rfl⟩

/-- Claim C5 (corrected): the four lead fields are always present in
the transformer's output and never null or undefined, and on the empty
payload each defaults to the empty string; truthy non-string source
values, however, are passed through uncoerced. -/
theorem c5_amended_fields_present (fd : JsVal) (now : String) :
    (lookupVal (transformToVelocifyFormat fd now) "FirstName").isSome =
      true ∧
    (lookupVal (transformToVelocifyFormat fd now) "LastName").isSome =
      true ∧
    (lookupVal (transformToVelocifyFormat fd now) "Email").isSome =
      true ∧
    (lookupVal (transformToVelocifyFormat fd now) "Phone").isSome =
      true ∧
    isNullOrUndef (lookupD (transformToVelocifyFormat fd now)
      "FirstName") = false ∧
    isNullOrUndef (lookupD (transformToVelocifyFormat fd now)
      "LastName") = false ∧
    isNullOrUndef (lookupD (transformToVelocifyFormat fd now)
      "Email") = false ∧
    isNullOrUndef (lookupD (transformToVelocifyFormat fd now)
      "Phone") = false ∧
    lookupD (transformToVelocifyFormat (jsObj []) now) "FirstName" =
      .str "" ∧
    lookupD (transformToVelocifyFormat (jsObj []) now) "LastName" =
      .str "" ∧
    lookupD (transformToVelocifyFormat (jsObj []) now) "Email" =
      .str "" ∧
    lookupD (transformToVelocifyFormat (jsObj []) now) "Phone" =
      .str "" := by
  refine ⟨by rw [transformToVelocifyFormat_eq]; rfl,
    by rw [transformToVelocifyFormat_eq]; rfl,
    by rw [transformToVelocifyFormat_eq]; rfl,
    by rw [transformToVelocifyFormat_eq]; rfl,
    by rw [transformToVelocifyFormat_eq]
       simp [lookupD, lookupVal, isNullOrUndef_cleanVal,
         isNullOrUndef_firstTruthy],
    by rw [transformToVelocifyFormat_eq]
       simp [lookupD, lookupVal, isNullOrUndef_cleanVal,
         isNullOrUndef_firstTruthy],
    by rw [transformToVelocifyFormat_eq]
       simp [lookupD, lookupVal, isNullOrUndef_cleanVal,
         isNullOrUndef_firstTruthy],
    by rw [transformToVelocifyFormat_eq]
       simp [lookupD, lookupVal, isNullOrUndef_cleanVal,
         isNullOrUndef_firstTruthy],
    by rfl, by rfl, by rfl, by rfl⟩

theorem eq_setField_getField :
    (c : JsVal) → (k j : String) →
      c = setField c k (getField c j) → getField c k = getField c j
  | .obj cf, k, j, h => by
    conv_lhs => rw [h]
    exact getField_setField_obj cf k (getField (JsVal.obj cf) j)
  | .undefined, _, _, _ => rfl
  | .null, _, _, _ => rfl
  | .bool _, _, _, _ => rfl
  | .num _, _, _, _ => rfl
  | .str _, _, _, _ => rfl

/-- Claim C10, counterexample: a payload whose contact sub-object
already carries `contactId` equal to its `id` is left completely
unchanged by extraction, so extraction does not always leave the
inbound payload changed. -/
theorem c10_counterexample :
    truthy (getField (jsObj [("contact",
      jsObj [("id", .str "x"), ("contactId", .str "x")])]) "contact") =
      true ∧
    (extractFormData (jsObj [("contact",
      jsObj [("id", .str "x"), ("contactId", .str "x")])])).1 =
      jsObj [("contact",
        jsObj [("id", .str "x"), ("contactId", .str "x")])] := by
  refine ⟨by rfl, by decide⟩

/-- Claim C10 (corrected): extraction returns the selected sub-object
with the reference ids written onto it, and that same object sits in
the returned payload (the aliasing mutation); the payload is changed
unless the sub-object already carried exactly the written value.  The
three clauses cover the form-submit, contact and custom-fields
shapes. -/
theorem c10_amended_extraction_mutates (p : JsVal) :
    ((isStr (getField p "type") "form_submit" &&
        truthy (getField p "form_data")) = true →
      (extractFormData p).2 =
        setField (setField (getField p "form_data") "contactId"
          (getField p "contact_id")) "locationId"
          (getField p "location_id") ∧
      getField (extractFormData p).1 "form_data" =
        (extractFormData p).2) ∧
    ((isStr (getField p "type") "form_submit" &&
        truthy (getField p "form_data")) = false →
      truthy (getField p "contact") = true →
      (extractFormData p).2 =
        setField (getField p "contact") "contactId"
          (getField (getField p "contact") "id") ∧
      getField (extractFormData p).1 "contact" =
        (extractFormData p).2 ∧
      (getField (getField p "contact") "contactId" ≠
          getField (getField p "contact") "id" →
        (extractFormData p).1 ≠ p)) ∧
    ((isStr (getField p "type") "form_submit" &&
        truthy (getField p "form_data")) = false →
      truthy (getField p "contact") = false →
      truthy (getField p "customFields") = true →
      (extractFormData p).2 =
        setField (getField p "customFields") "contactId"
          (getField p "contactId") ∧
      getField (extractFormData p).1 "customFields" =
        (extractFormData p).2) := by
  refine ⟨?_, ?_, ?_⟩
  · intro hfs
    obtain ⟨fs, rfl⟩ := getField_truthy_obj p "form_data"
      ((Bool.and_eq_true _ _).mp hfs).2
    exact ⟨by simp [extractFormData, hfs],
      by simp [extractFormData, hfs, getField_setField_obj]⟩
  · intro hfs hc
    obtain ⟨fs, rfl⟩ := getField_truthy_obj p "contact" hc
    refine ⟨by simp [extractFormData, hfs, hc],
      by simp [extractFormData, hfs, hc, getField_setField_obj], ?_⟩
    intro hne heq
    apply hne
    apply eq_setField_getField
    calc getField (JsVal.obj fs) "contact"
        = getField (extractFormData (JsVal.obj fs)).1 "contact" := by
          rw [heq]
      _ = setField (getField (JsVal.obj fs) "contact") "contactId"
          (getField (getField (JsVal.obj fs) "contact") "id") := by
          simp [extractFormData, hfs, hc, getField_setField_obj]
  · intro hfs hc hcf
    obtain ⟨fs, rfl⟩ := getField_truthy_obj p "customFields" hcf
    exact ⟨by simp [extractFormData, hfs, hc, hcf],
      by simp [extractFormData, hfs, hc, hcf, getField_setField_obj]⟩

/-- Witness for C10 at a payload whose contact sub-object lacks a
contactId: extraction changes the payload. -/
theorem c10_witness :
    (extractFormData
      (jsObj [("contact", jsObj [("id", .str "x")])])).1 ≠
      jsObj [("contact", jsObj [("id", .str "x")])] :=
  ((c10_amended_extraction_mutates
      (jsObj [("contact", jsObj [("id", .str "x")])])).2.1
    (by rfl) (by rfl)).2.2 (by decide)

end GhlVelocify
